import Mathlib

/-!
# Verification of the Stargazr frontend (vmenon04/darksky)

Shallow embedding of the client-side logic of the stargazing advisory app:
the combined-score computation and color banding (RecommendationCard.tsx),
zone ranking (App.tsx), input validation (LocationInput.tsx), the request
behaviour of the App event handlers (App.tsx, api.ts), and the per-card
progressive-disclosure state machine (DarkSkyZoneCard.tsx).

JavaScript numbers are modeled as exact rationals (`ℚ`); `Math.round` is
Mathlib's `round` (both round half away from zero towards `+∞` on the
non-negative score ranges involved).  The locale order used by
`String.prototype.localeCompare` is modeled by Lean's linear order on
`String`.
-/

namespace Stargazr

/-! ## Data model (frontend/src/types.ts) -/

/-- `Location` from types.ts.  The optional display `name` is kept as an
`Option String`. -/
structure Location where
  latitude : ℚ
  longitude : ℚ
  name : Option String
deriving Repr, DecidableEq

/-- `WeatherConditions` from types.ts. -/
structure WeatherConditions where
  temperature_f : ℚ
  temperature_c : ℚ
  humidity : ℚ
  cloud_cover : ℚ
  visibility_miles : ℚ
  wind_speed_mph : ℚ
  wind_direction : String
  condition : String
  condition_description : String
  weather_score : ℚ
  precipitation_chance : ℚ
deriving Repr, DecidableEq

/-- `DarkSkyZone` from types.ts. -/
structure DarkSkyZone where
  name : String
  latitude : ℚ
  longitude : ℚ
  bortle_scale : ℚ
  designation_type : String
  distance_miles : ℚ
  description : String
deriving Repr, DecidableEq

/-- `AstronomicalConditions` from types.ts. -/
structure AstronomicalConditions where
  moon_phase : String
  moon_illumination : ℚ
  moon_rise_time : Option String
  moon_set_time : Option String
  best_viewing_start : String
  best_viewing_end : String
  visibility_score : ℚ
  conditions_description : String
  bortle_scale : Option ℚ
  bortle_scale_estimated : Option Bool
  bortle_scale_source : Option String
  weather : Option WeatherConditions
deriving Repr, DecidableEq

/-- `StargazingRecommendation` from types.ts. -/
structure StargazingRecommendation where
  date : String
  conditions : AstronomicalConditions
  dark_sky_zones : List DarkSkyZone
deriving Repr, DecidableEq

/-! ## Combined score (components/RecommendationCard.tsx, lines 78-81) -/

/-- JavaScript `x || d` on a number `x`: `0` is falsy, so it yields the
default `d` when `x = 0` (NaN is not modeled in `ℚ`). -/
def jsOr (x d : ℚ) : ℚ := if x = 0 then d else x

/-- `conditions.weather?.weather_score || 50` from RecommendationCard.tsx
line 80: the weather score used for the combined score, defaulting to 50
when weather data is absent (and, via `||`, also when it is `0`). -/
def weatherScoreOf (c : AstronomicalConditions) : ℚ :=
  match c.weather with
  | some w => jsOr w.weather_score 50
  | none => 50

/-- `Math.round((astronomyScore * 0.6) + (weatherScore * 0.4))` from
RecommendationCard.tsx line 81, with `astronomyScore = conditions.visibility_score`
(line 79). -/
def combinedScore (c : AstronomicalConditions) : ℤ :=
  round (c.visibility_score * (6/10) + weatherScoreOf c * (4/10))

/-- `getVisibilityColor` from RecommendationCard.tsx lines 34-39:
the 4-tier banding applied to the astronomy score. -/
def getVisibilityColor (score : ℚ) : String :=
  if score ≥ 80 then "text-green-400"
  else if score ≥ 60 then "text-yellow-400"
  else if score ≥ 40 then "text-orange-400"
  else "text-red-400"

/-- `getScoreColor` from RecommendationCard.tsx lines 48-55:
the finer 6-tier banding. -/
def getScoreColor (score : ℚ) : String :=
  if score ≥ 80 then "text-green-400"
  else if score ≥ 70 then "text-lime-400"
  else if score ≥ 60 then "text-yellow-400"
  else if score ≥ 50 then "text-orange-400"
  else if score ≥ 40 then "text-red-400"
  else "text-red-500"

/-- `getScoreBgColor` from RecommendationCard.tsx lines 57-64. -/
def getScoreBgColor (score : ℚ) : String :=
  if score ≥ 80 then "bg-green-400/20"
  else if score ≥ 70 then "bg-lime-400/20"
  else if score ≥ 60 then "bg-yellow-400/20"
  else if score ≥ 50 then "bg-orange-400/20"
  else if score ≥ 40 then "bg-red-400/20"
  else "bg-red-500/20"

/-- The CSS color class the card applies to the displayed combined score:
`getScoreColor(combinedScore)` at RecommendationCard.tsx line 117. -/
def combinedScoreColor (c : AstronomicalConditions) : String :=
  getScoreColor ((combinedScore c : ℤ) : ℚ)

/-- The CSS color class the card applies to the astronomy score:
`getVisibilityColor(astronomyScore)` at RecommendationCard.tsx line 127. -/
def astronomyScoreColor (c : AstronomicalConditions) : String :=
  getVisibilityColor c.visibility_score

/-- The CSS color class the card applies to the weather score:
`getScoreColor(weatherScore)` at RecommendationCard.tsx line 134. -/
def weatherScoreColor (c : AstronomicalConditions) : String :=
  getScoreColor (weatherScoreOf c)

/-! ### Concrete inputs for the scoring claims -/

/-- A weather record with `weather_score = 0`. -/
def exWeather0 : WeatherConditions :=
  { temperature_f := 60, temperature_c := 15, humidity := 50, cloud_cover := 100
    visibility_miles := 1, wind_speed_mph := 5, wind_direction := "N"
    condition := "Overcast", condition_description := "Overcast"
    weather_score := 0, precipitation_chance := 0 }

/-- A day's conditions with visibility score 0 and an embedded weather record
carrying weather score 0. -/
def exCondZero : AstronomicalConditions :=
  { moon_phase := "Full Moon", moon_illumination := 100
    moon_rise_time := none, moon_set_time := none
    best_viewing_start := "22:00", best_viewing_end := "04:00"
    visibility_score := 0, conditions_description := "Poor"
    bortle_scale := none, bortle_scale_estimated := none
    bortle_scale_source := none, weather := some exWeather0 }

/-- A weather record with `weather_score = 40`. -/
def exWeather40 : WeatherConditions :=
  { temperature_f := 55, temperature_c := 13, humidity := 70, cloud_cover := 60
    visibility_miles := 6, wind_speed_mph := 10, wind_direction := "W"
    condition := "Cloudy", condition_description := "Partly cloudy"
    weather_score := 40, precipitation_chance := 20 }

/-- A day's conditions with astronomy score 90 and weather score 40
(the scenario of the spec). -/
def exCond9040 : AstronomicalConditions :=
  { moon_phase := "New Moon", moon_illumination := 2
    moon_rise_time := none, moon_set_time := none
    best_viewing_start := "21:00", best_viewing_end := "05:00"
    visibility_score := 90, conditions_description := "Excellent"
    bortle_scale := none, bortle_scale_estimated := none
    bortle_scale_source := none, weather := some exWeather40 }

end Stargazr

namespace Stargazr

/-- C1 fails as stated at `W = 0`: the JavaScript `||` default treats a
weather score of `0` as absent, so with `A = 0, W = 0` the client displays
`round(0*0.6 + 50*0.4) = 20` instead of `round(0*0.6 + 0*0.4) = 0`. -/
theorem C1_counterexample :
    exCondZero.visibility_score = 0 ∧
    exCondZero.weather = some exWeather0 ∧
    exWeather0.weather_score = 0 ∧
    combinedScore exCondZero = 20 ∧
    round (exCondZero.visibility_score * (6/10) + exWeather0.weather_score * (4/10)) = 0 ∧
    (20 : ℤ) ≠ 0 := by
  refine ⟨rfl, rfl, rfl, ?_, ?_, by decide⟩
  · show round ((0 : ℚ) * (6/10) + jsOr 0 50 * (4/10)) = 20
    norm_num [jsOr]
  · show round ((0 : ℚ) * (6/10) + (0 : ℚ) * (4/10)) = 0
    norm_num

/-- C1 amended: when weather data is present with a nonzero weather score
`W ∈ (0, 100]`, the combined score is `round(A*0.6 + W*0.4)`; when weather
data is absent, it is `round(A*0.6 + 50*0.4)`; and when weather data is
present with `weather_score = 0`, the `||` default makes the combined score
equal the absent-case value `round(A*0.6 + 50*0.4)` for every visibility
score `A`. -/
theorem C1_combined_score :
    (∀ (c : AstronomicalConditions) (w : WeatherConditions),
        c.weather = some w → 0 < w.weather_score → w.weather_score ≤ 100 →
        combinedScore c =
          round (c.visibility_score * (6/10) + w.weather_score * (4/10))) ∧
    (∀ c : AstronomicalConditions, c.weather = none →
        combinedScore c =
          round (c.visibility_score * (6/10) + (50 : ℚ) * (4/10))) ∧
    (∀ (c : AstronomicalConditions) (w : WeatherConditions),
        c.weather = some w → w.weather_score = 0 →
        combinedScore c =
          round (c.visibility_score * (6/10) + (50 : ℚ) * (4/10))) := by
  refine ⟨?_, ?_, ?_⟩
  · intro c w hw h0 _
    simp [combinedScore, weatherScoreOf, jsOr, hw, h0.ne']
  · intro c hw
    simp [combinedScore, weatherScoreOf, hw]
  · intro c w hw h0
    simp [combinedScore, weatherScoreOf, jsOr, hw, h0]

/-- Witness for C1: at astronomy score 90 and weather score 40 the combined
score computed by the card equals `round(90*0.6 + 40*0.4)`. -/
theorem C1_combined_score_witness :
    combinedScore exCond9040 =
      round ((90 : ℚ) * (6/10) + (40 : ℚ) * (4/10)) :=
  C1_combined_score.1 exCond9040 exWeather40 rfl (by norm_num [exWeather40])
    (by norm_num [exWeather40])

/-- C3 fails as stated: the combined score for astronomy 90 / weather 40 is
indeed 70, but the card bands the combined score with the 6-tier
`getScoreColor`, which yields `text-lime-400` at 70, not the `yellow` of the
4-tier scheme. -/
theorem C3_counterexample :
    combinedScore exCond9040 = 70 ∧
    combinedScoreColor exCond9040 = "text-lime-400" ∧
    getVisibilityColor 70 = "text-yellow-400" ∧
    "text-lime-400" ≠ "text-yellow-400" := by
  have h : combinedScore exCond9040 = 70 := by
    show round ((90 : ℚ) * (6/10) + jsOr 40 50 * (4/10)) = 70
    norm_num [jsOr]
  refine ⟨h, ?_, by norm_num [getVisibilityColor], by decide⟩
  show getScoreColor ((combinedScore exCond9040 : ℤ) : ℚ) = "text-lime-400"
  rw [h]
  norm_num [getScoreColor]

/-- C3 amended: astronomy 90 / weather 40 gives combined score 70, and the
banding function the card applies to the combined score is the 6-tier
`getScoreColor`, which yields `text-lime-400` on the whole band
`[70, 80)`; the 4-tier `getVisibilityColor` is applied to the astronomy
score, not to the combined score. -/
theorem C3_banding :
    combinedScore exCond9040 = 70 ∧
    combinedScoreColor exCond9040 = "text-lime-400" ∧
    astronomyScoreColor exCond9040 = "text-green-400" ∧
    (∀ s : ℚ, 70 ≤ s → s < 80 → getScoreColor s = "text-lime-400") := by
  have h : combinedScore exCond9040 = 70 := by
    show round ((90 : ℚ) * (6/10) + jsOr 40 50 * (4/10)) = 70
    norm_num [jsOr]
  refine ⟨h, ?_, ?_, ?_⟩
  · show getScoreColor ((combinedScore exCond9040 : ℤ) : ℚ) = "text-lime-400"
    rw [h]
    norm_num [getScoreColor]
  · show getVisibilityColor 90 = "text-green-400"
    norm_num [getVisibilityColor]
  · intro s h70 h80
    rw [getScoreColor, if_neg (by linarith), if_pos (by linarith)]

/-- Witness for C3 amended: `getScoreColor` bands 75 as lime. -/
theorem C3_banding_witness : getScoreColor 75 = "text-lime-400" :=
  C3_banding.2.2.2 75 (by norm_num) (by norm_num)

end Stargazr

namespace Stargazr

/-! ## Zone ranking (App.tsx lines 10, 31-49) -/

/-- `type SortOption = 'distance' | 'bortle' | 'name'` (App.tsx line 10). -/
inductive SortOption where
  | distance
  | bortle
  | name
deriving Repr, DecidableEq

/-- `a.name.localeCompare(b.name)` (App.tsx line 41): the locale comparison,
modeled through the linear order on `String`, yielding -1 / 0 / 1. -/
def localeCompare (a b : String) : ℚ :=
  if a < b then -1 else if a = b then 0 else 1

/-- The comparator passed to `Array.prototype.sort` (App.tsx lines 34-45),
returning a number whose sign orders the two zones. -/
def zoneComparator (sortBy : SortOption) (a b : DarkSkyZone) : ℚ :=
  match sortBy with
  | .distance => a.distance_miles - b.distance_miles
  | .bortle => a.bortle_scale - b.bortle_scale
  | .name => localeCompare a.name b.name

/-- `Array.prototype.sort` keeps `a` no later than `b` exactly when the
comparator result is ≤ 0. -/
def comparatorLe (sortBy : SortOption) (a b : DarkSkyZone) : Bool :=
  decide (zoneComparator sortBy a b ≤ 0)

/-- `sortedDarkSkyZones` (App.tsx lines 31-49): if the fetched list is empty
return `[]`; otherwise sort a copy with the selected comparator — the
ECMAScript sort is specified stable, modeled by the stable `List.mergeSort` —
and slice to the display limit. -/
def sortedDarkSkyZones (darkSkyZones : List DarkSkyZone) (sortBy : SortOption)
    (displayLimit : ℕ) : List DarkSkyZone :=
  if darkSkyZones.length = 0 then []
  else (darkSkyZones.mergeSort (comparatorLe sortBy)).take displayLimit

/-- The documented comparator, written from the spec's words: ascending
`distance_miles` for `distance`, ascending `bortle_scale` for `bortle`,
lexicographic `name` for `name`. -/
def specZoneLe (sortBy : SortOption) (a b : DarkSkyZone) : Bool :=
  match sortBy with
  | .distance => decide (a.distance_miles ≤ b.distance_miles)
  | .bortle => decide (a.bortle_scale ≤ b.bortle_scale)
  | .name => decide (a.name ≤ b.name)

/-- The code's sort-order relation agrees with the documented comparator. -/
theorem comparatorLe_eq_specZoneLe (sortBy : SortOption) :
    comparatorLe sortBy = specZoneLe sortBy := by
  funext a b
  cases sortBy with
  | distance =>
    simp only [comparatorLe, zoneComparator, specZoneLe, decide_eq_decide]
    exact sub_nonpos
  | bortle =>
    simp only [comparatorLe, zoneComparator, specZoneLe, decide_eq_decide]
    exact sub_nonpos
  | name =>
    simp only [comparatorLe, zoneComparator, specZoneLe, localeCompare,
      decide_eq_decide]
    rcases lt_trichotomy a.name b.name with h | h | h
    · simp [h, le_of_lt h]
    · simp [h]
    · simp [lt_asymm h, h.ne', not_le.mpr h]

/-- The documented comparator is transitive. -/
theorem specZoneLe_trans (sortBy : SortOption) :
    ∀ a b c : DarkSkyZone,
      specZoneLe sortBy a b → specZoneLe sortBy b c → specZoneLe sortBy a c := by
  intro a b c hab hbc
  cases sortBy <;>
    simp only [specZoneLe, decide_eq_true_eq] at hab hbc ⊢ <;>
    exact le_trans hab hbc

/-- The documented comparator is total. -/
theorem specZoneLe_total (sortBy : SortOption) :
    ∀ a b : DarkSkyZone, specZoneLe sortBy a b || specZoneLe sortBy b a := by
  intro a b
  cases sortBy <;>
    simp only [specZoneLe, Bool.or_eq_true, decide_eq_true_eq] <;>
    exact le_total _ _

/-- C2: for every fetched list and sort key, the displayed sequence equals
the stable sort of the list under the documented comparator truncated to
the display limit; that sorted list is a permutation of the fetched list,
is sorted for the comparator, and is stable (any comparator-ordered pair
that is a sublist of the fetched list stays a sublist of the sorted one). -/
theorem C2_zone_sorting (zones : List DarkSkyZone) (sortBy : SortOption)
    (limit : ℕ) :
    sortedDarkSkyZones zones sortBy limit =
      (zones.mergeSort (specZoneLe sortBy)).take limit ∧
    (zones.mergeSort (specZoneLe sortBy)).Perm zones ∧
    (zones.mergeSort (specZoneLe sortBy)).Pairwise
      (fun a b => specZoneLe sortBy a b = true) ∧
    (∀ a b : DarkSkyZone, specZoneLe sortBy a b = true →
      List.Sublist [a, b] zones →
      List.Sublist [a, b] (zones.mergeSort (specZoneLe sortBy))) := by
  refine ⟨?_, List.mergeSort_perm zones _, ?_, ?_⟩
  · rw [sortedDarkSkyZones, comparatorLe_eq_specZoneLe]
    split
    · next h => simp [List.length_eq_zero.mp h]
    · rfl
  · exact List.sorted_mergeSort (specZoneLe_trans sortBy) (specZoneLe_total sortBy)
      zones
  · intro a b hab hsub
    exact List.pair_sublist_mergeSort (specZoneLe_trans sortBy)
      (specZoneLe_total sortBy) hab hsub

/-- A concrete zone. -/
def exZoneA : DarkSkyZone :=
  { name := "Alpha Park", latitude := 10, longitude := 20, bortle_scale := 2
    designation_type := "Dark Sky Park", distance_miles := 50
    description := "First zone" }

/-- A second concrete zone at the same distance as `exZoneA`. -/
def exZoneB : DarkSkyZone :=
  { name := "Beta Reserve", latitude := 11, longitude := 21, bortle_scale := 3
    designation_type := "Dark Sky Reserve", distance_miles := 50
    description := "Second zone" }

/-- Witness for C2: two zones at equal distance keep their fetched order
under the distance sort (stability at a tie). -/
theorem C2_zone_sorting_witness :
    List.Sublist [exZoneA, exZoneB]
      ([exZoneA, exZoneB].mergeSort (specZoneLe .distance)) :=
  (C2_zone_sorting [exZoneA, exZoneB] .distance 5).2.2.2 exZoneA exZoneB
    (by decide) (List.Sublist.refl _)

end Stargazr

namespace Stargazr

/-! ## Location input (src/unnamed/part_001, `LocationInput`) -/

/-- A coordinate text field together with the result of `parseFloat` on it
(`none` models NaN, e.g. for the empty string or non-numeric text). -/
structure CoordField where
  raw : String
  parsed : Option ℚ
deriving Repr, DecidableEq

/-- The observable outcome of `handleSubmit` (part_001 lines 42-101) up to
the first network round-trip: a local validation error (no callback, no
network), a direct `onLocationSubmit` call (manual-coordinate path), or an
external geocoding request for the trimmed zipcode. -/
inductive SubmitAction where
  | validationError (msg : String)
  | submitLocation (loc : Location) (isCurrentLocation : Bool)
  | geocodeRequest (zipcode : String)
deriving Repr, DecidableEq

/-- `zipcode.trim()`: JavaScript's trim, modeled structurally by dropping
whitespace characters from both ends of the character list. -/
def jsTrim (s : String) : String :=
  String.mk
    (((s.toList.dropWhile Char.isWhitespace).reverse.dropWhile
      Char.isWhitespace).reverse)

/-- The regular-expression test of part_001 line 75: five ASCII digits,
optionally followed by a dash and four more digits. -/
def zipcodeRegexTest (s : String) : Bool :=
  let cs := s.toList
  (cs.length == 5 && cs.all Char.isDigit) ||
  (cs.length == 10 && (cs.take 5).all Char.isDigit &&
    cs[5]? == some '-' && (cs.drop 6).all Char.isDigit)

/-- `handleSubmit` from part_001 lines 42-101.  The manual branch is taken
when both coordinate fields are non-empty (JavaScript truthiness of the raw
strings); the display name built with `toFixed(4)` is presentational only
and is not modeled (`name := none`). -/
def handleSubmit (zipcode : String) (latitude longitude : CoordField) :
    SubmitAction :=
  if latitude.raw ≠ "" ∧ longitude.raw ≠ "" then
    match latitude.parsed, longitude.parsed with
    | some lat, some lng =>
      if lat < -90 ∨ lat > 90 then
        .validationError "Latitude must be between -90 and 90"
      else if lng < -180 ∨ lng > 180 then
        .validationError "Longitude must be between -180 and 180"
      else
        .submitLocation { latitude := lat, longitude := lng, name := none } false
    | _, _ => .validationError "Please enter valid latitude and longitude values"
  else if jsTrim zipcode ≠ "" then
    if !zipcodeRegexTest (jsTrim zipcode) then
      .validationError "Please enter a valid US zipcode (e.g., 12345 or 12345-6789)"
    else
      .geocodeRequest (jsTrim zipcode)
  else
    .validationError "Please enter a zipcode or coordinates"

/-- C4: a manual coordinate submission with a parsed latitude outside
[-90, 90] or longitude outside [-180, 180] is rejected with a validation
error — so `onLocationSubmit` is not called and no request is issued — and
a submission whose parsed values both lie in range proceeds to
`onLocationSubmit`. -/
theorem C4_manual_validation :
    (∀ (zip : String) (latF lngF : CoordField) (lat lng : ℚ),
        latF.raw ≠ "" → lngF.raw ≠ "" →
        latF.parsed = some lat → lngF.parsed = some lng →
        (lat < -90 ∨ lat > 90 ∨ lng < -180 ∨ lng > 180) →
        ∃ msg, handleSubmit zip latF lngF = .validationError msg) ∧
    (∀ (zip : String) (latF lngF : CoordField) (lat lng : ℚ),
        latF.raw ≠ "" → lngF.raw ≠ "" →
        latF.parsed = some lat → lngF.parsed = some lng →
        -90 ≤ lat → lat ≤ 90 → -180 ≤ lng → lng ≤ 180 →
        handleSubmit zip latF lngF =
          .submitLocation { latitude := lat, longitude := lng, name := none }
            false) := by
  constructor
  · intro zip latF lngF lat lng hlr hlnr hlp hlnp hout
    by_cases h1 : lat < -90 ∨ lat > 90
    · exact ⟨"Latitude must be between -90 and 90",
        by simp [handleSubmit, hlr, hlnr, hlp, hlnp, h1]⟩
    · have h2 : lng < -180 ∨ lng > 180 := by
        rcases hout with h | h | h | h
        · exact absurd (Or.inl h) h1
        · exact absurd (Or.inr h) h1
        · exact Or.inl h
        · exact Or.inr h
      exact ⟨"Longitude must be between -180 and 180",
        by simp [handleSubmit, hlr, hlnr, hlp, hlnp, h1, h2]⟩
  · intro zip latF lngF lat lng hlr hlnr hlp hlnp ha hb hc hd
    have h1 : ¬(lat < -90 ∨ lat > 90) := by
      push_neg
      exact ⟨ha, hb⟩
    have h2 : ¬(lng < -180 ∨ lng > 180) := by
      push_neg
      exact ⟨hc, hd⟩
    simp [handleSubmit, hlr, hlnr, hlp, hlnp, h1, h2]

/-- Witness for C4: latitude 100 with longitude 0 is rejected. -/
theorem C4_manual_validation_witness :
    ∃ msg, handleSubmit "" ⟨"100", some 100⟩ ⟨"0", some 0⟩ =
      SubmitAction.validationError msg :=
  C4_manual_validation.1 "" ⟨"100", some 100⟩ ⟨"0", some 0⟩ 100 0
    (by decide) (by decide) rfl rfl (Or.inr (Or.inl (by norm_num)))

/-- C5: a zipcode submission (coordinate fields not both filled, trimmed
zipcode non-empty) whose trimmed zipcode fails the 5-digit / 5+4-digit
pattern is rejected with a validation error and no geocoding request is
issued; conversely, every geocoding request the handler issues carries a
pattern-matching zipcode. -/
theorem C5_zipcode_validation :
    (∀ (zip : String) (latF lngF : CoordField),
        ¬(latF.raw ≠ "" ∧ lngF.raw ≠ "") → jsTrim zip ≠ "" →
        zipcodeRegexTest (jsTrim zip) = false →
        handleSubmit zip latF lngF =
          .validationError
            "Please enter a valid US zipcode (e.g., 12345 or 12345-6789)") ∧
    (∀ (zip z : String) (latF lngF : CoordField),
        handleSubmit zip latF lngF = .geocodeRequest z →
        zipcodeRegexTest z = true) := by
  constructor
  · intro zip latF lngF hman htrim hre
    simp [handleSubmit, hman, htrim, hre]
  · intro zip z latF lngF h
    by_cases hman : latF.raw ≠ "" ∧ lngF.raw ≠ ""
    · rw [handleSubmit, if_pos hman] at h
      rcases hlp : latF.parsed with _ | lat <;>
        rcases hlnp : lngF.parsed with _ | lng <;>
        rw [hlp, hlnp] at h <;>
        simp only [] at h
      · exact absurd h (by simp)
      · exact absurd h (by simp)
      · exact absurd h (by simp)
      · split at h
        · exact absurd h (by simp)
        · split at h
          · exact absurd h (by simp)
          · exact absurd h (by simp)
    · rw [handleSubmit, if_neg hman] at h
      by_cases htrim : jsTrim zip ≠ ""
      · rw [if_pos htrim] at h
        by_cases hre : zipcodeRegexTest (jsTrim zip)
        · rw [if_neg (by simp [hre])] at h
          cases h
          exact hre
        · rw [if_pos (by simp [hre])] at h
          exact absurd h (by simp)
      · rw [if_neg htrim] at h
        exact absurd h (by simp)

/-- Witness for C5: the zipcode "abc" is rejected before geocoding. -/
theorem C5_zipcode_validation_witness :
    handleSubmit "abc" ⟨"", none⟩ ⟨"", none⟩ =
      SubmitAction.validationError
        "Please enter a valid US zipcode (e.g., 12345 or 12345-6789)" :=
  C5_zipcode_validation.1 "abc" ⟨"", none⟩ ⟨"", none⟩ (by simp) (by decide)
    (by decide)

end Stargazr

namespace Stargazr

/-! ## App event handlers (App.tsx lines 13-107, 197-313; api.ts lines 28-53)

Each asynchronous handler is split into its synchronous start (the state
updates and the batch of requests issued before any response arrives) and
its success / failure continuation.  A batch issued by one start step models
requests started together (`Promise.all` starts its arguments in parallel).
-/

/-- `type TabOption = 'zones' | 'recommendations'` (App.tsx line 11). -/
inductive TabOption where
  | zones
  | recommendations
deriving Repr, DecidableEq

/-- A backend request as built by api.ts: `findDarkSkyZones` posts the
location with a `limit` query (lines 28-37), `getStargazingRecommendations`
posts the location with `days` and an optional `zone_name` query
(lines 39-53, where `params.zone_name` is set only when `zoneName` is
truthy). -/
inductive ApiRequest where
  | findDarkSkyZones (body : Location) (limit : ℚ)
  | stargazingRecommendations (body : Location) (zone_name : Option String)
      (days : ℚ)
deriving Repr, DecidableEq

/-- Whether a request is a find-dark-sky-zones call. -/
def ApiRequest.isFindZones : ApiRequest → Bool
  | .findDarkSkyZones _ _ => true
  | _ => false

/-- Whether a request is a stargazing-recommendations call. -/
def ApiRequest.isRecommendations : ApiRequest → Bool
  | .stargazingRecommendations _ _ _ => true
  | _ => false

/-- The component state of `App` (App.tsx lines 14-28).  The purely
cosmetic `animationKey` string is not modeled. -/
structure AppState where
  location : Option Location
  userCurrentLocation : Option Location
  darkSkyZones : List DarkSkyZone
  recommendations : List StargazingRecommendation
  loading : Bool
  error : Option String
  activeTab : TabOption
  sortBy : SortOption
  displayLimit : ℕ
  loadingMore : Bool
  previousDisplayLimit : ℕ
  selectedZoneForRecommendations : Option String
  loadingRecommendations : Bool
  recommendationDays : ℚ
deriving Repr, DecidableEq

/-- The initial state from the `useState` defaults (App.tsx lines 14-28). -/
def initialAppState : AppState :=
  { location := none, userCurrentLocation := none, darkSkyZones := []
    recommendations := [], loading := false, error := none
    activeTab := .zones, sortBy := .distance, displayLimit := 5
    loadingMore := false, previousDisplayLimit := 5
    selectedZoneForRecommendations := none, loadingRecommendations := false
    recommendationDays := 7 }

/-- JavaScript `z || undefined` on an optional string: the empty string is
falsy, so it becomes `undefined` (used at App.tsx lines 99 and 295). -/
def jsOrUndefined (z : Option String) : Option String :=
  match z with
  | some str => if str = "" then none else some str
  | none => none

/-- The synchronous part of `handleLocationSubmit` (App.tsx lines 51-71):
state updates before the `await`, and the two requests started together by
`Promise.all` — the zones call with `limit = 0` (load all) and the
recommendations call with no zone and the current day window. -/
def handleLocationSubmitStart (s : AppState) (newLocation : Location)
    (isCurrentLocation : Bool) : AppState × List ApiRequest :=
  ({ s with
      location := some newLocation
      userCurrentLocation :=
        if isCurrentLocation then some newLocation else s.userCurrentLocation
      displayLimit := 5
      previousDisplayLimit := 0
      selectedZoneForRecommendations := none
      loading := true
      error := none },
   [ .findDarkSkyZones newLocation 0,
     .stargazingRecommendations newLocation none s.recommendationDays ])

/-- The success continuation of `handleLocationSubmit`
(App.tsx lines 73-74, 78). -/
def handleLocationSubmitSuccess (s : AppState) (zonesData : List DarkSkyZone)
    (recommendationsData : List StargazingRecommendation) : AppState :=
  { s with
      darkSkyZones := zonesData
      recommendations := recommendationsData
      loading := false }

/-- The failure continuation of `handleLocationSubmit`
(App.tsx lines 75-78). -/
def handleLocationSubmitFailure (s : AppState) (msg : String) : AppState :=
  { s with error := some msg, loading := false }

/-- `handleLoadMore` (App.tsx lines 82-90): the settled effect of the start
step plus its 300 ms timeout callback.  No request is issued. -/
def handleLoadMore (s : AppState) : AppState × List ApiRequest :=
  ({ s with
      previousDisplayLimit := s.displayLimit
      displayLimit := s.displayLimit + 5
      loadingMore := false },
   [])

/-- The sort-dropdown `onChange` handler (App.tsx lines 199-204): set the
sort key and reset the display limit to 5.  No request is issued. -/
def handleSortChange (s : AppState) (newSort : SortOption) :
    AppState × List ApiRequest :=
  ({ s with sortBy := newSort, displayLimit := 5, previousDisplayLimit := 0 },
   [])

/-- The synchronous part of `handleZoneSelectionForRecommendations`
(App.tsx lines 92-99): nothing happens without a location; otherwise the
zone is selected and one recommendations request is issued. -/
def handleZoneSelectionStart (s : AppState) (zoneName : Option String) :
    AppState × List ApiRequest :=
  match s.location with
  | none => (s, [])
  | some loc =>
    ({ s with
        selectedZoneForRecommendations := zoneName
        loadingRecommendations := true },
     [ .stargazingRecommendations loc (jsOrUndefined zoneName)
         s.recommendationDays ])

/-- The success continuation of `handleZoneSelectionForRecommendations`
(App.tsx lines 100-101, 105): store the response, then switch to the
recommendations tab. -/
def handleZoneSelectionSuccess (s : AppState)
    (recommendationsData : List StargazingRecommendation) : AppState :=
  { s with
      recommendations := recommendationsData
      activeTab := .recommendations
      loadingRecommendations := false }

/-- The failure continuation of `handleZoneSelectionForRecommendations`
(App.tsx lines 102-105): only the error banner and the loading flag change. -/
def handleZoneSelectionFailure (s : AppState) (msg : String) : AppState :=
  { s with error := some msg, loadingRecommendations := false }

/-- The synchronous part of the days-selector `onChange` handler
(App.tsx lines 282-297): store the new day window; with a location present,
start one recommendations request for the currently selected zone and the
new day count. -/
def handleDaysChangeStart (s : AppState) (newDays : ℚ) :
    AppState × List ApiRequest :=
  match s.location with
  | none => ({ s with recommendationDays := newDays }, [])
  | some loc =>
    ({ s with recommendationDays := newDays, loadingRecommendations := true },
     [ .stargazingRecommendations loc
         (jsOrUndefined s.selectedZoneForRecommendations) newDays ])

/-- The success continuation of the days-selector handler
(App.tsx lines 298, 302): replace the recommendation list wholesale. -/
def handleDaysChangeSuccess (s : AppState)
    (recommendationsData : List StargazingRecommendation) : AppState :=
  { s with
      recommendations := recommendationsData
      loadingRecommendations := false }

/-- The failure continuation of the days-selector handler
(App.tsx lines 299-302). -/
def handleDaysChangeFailure (s : AppState) (msg : String) : AppState :=
  { s with error := some msg, loadingRecommendations := false }

/-- C6: a location submission issues exactly one find-dark-sky-zones call
and exactly one stargazing-recommendations call, started together in a
single batch (`Promise.all`), both carrying the submitted location as body;
the zones call uses `limit = 0`, requesting the full set. -/
theorem C6_submit_requests (s : AppState) (loc : Location)
    (isCurrentLocation : Bool) :
    (handleLocationSubmitStart s loc isCurrentLocation).2 =
      [ ApiRequest.findDarkSkyZones loc 0,
        ApiRequest.stargazingRecommendations loc none s.recommendationDays ] ∧
    ((handleLocationSubmitStart s loc isCurrentLocation).2.countP
      ApiRequest.isFindZones) = 1 ∧
    ((handleLocationSubmitStart s loc isCurrentLocation).2.countP
      ApiRequest.isRecommendations) = 1 ∧
    (handleLocationSubmitStart s loc isCurrentLocation).1.loading = true := by
  refine ⟨rfl, ?_, ?_, rfl⟩ <;>
    simp [handleLocationSubmitStart, List.countP_cons,
      ApiRequest.isFindZones, ApiRequest.isRecommendations]

/-- C7: changing the day window while a zone filter is active issues
exactly one new recommendations request carrying the same zone name and
the new day count, and on success the recommendation list is replaced
wholesale by the response. -/
theorem C7_days_change (s : AppState) (loc : Location) (zone : String)
    (newDays : ℚ) (hloc : s.location = some loc)
    (hzone : s.selectedZoneForRecommendations = some zone) (hz : zone ≠ "") :
    (handleDaysChangeStart s newDays).2 =
      [ ApiRequest.stargazingRecommendations loc (some zone) newDays ] ∧
    (handleDaysChangeStart s newDays).1.recommendationDays = newDays ∧
    (∀ recs, (handleDaysChangeSuccess
        (handleDaysChangeStart s newDays).1 recs).recommendations = recs) := by
  refine ⟨?_, ?_, fun recs => rfl⟩ <;>
    simp [handleDaysChangeStart, hloc, hzone, jsOrUndefined, hz]

/-- A concrete location (the spec's San Francisco example). -/
def exLocation : Location :=
  { latitude := 377749/10000, longitude := -1224194/10000
    name := some "San Francisco, CA" }

/-- A concrete App state with a location and an active zone filter. -/
def exAppState : AppState :=
  { initialAppState with
      location := some exLocation
      selectedZoneForRecommendations := some "Alpha Park" }

/-- Witness for C7: from a state with a location and the zone filter
"Alpha Park", switching the day window to 14 issues exactly the one
request with the same zone name and the new day count. -/
theorem C7_days_change_witness :
    (handleDaysChangeStart exAppState 14).2 =
      [ ApiRequest.stargazingRecommendations exLocation
          (some "Alpha Park") 14 ] :=
  (C7_days_change exAppState exLocation "Alpha Park" 14 rfl rfl
    (by decide)).1

/-- C8: changing the sort key and pressing "show more" are pure client-side
view transformations: neither issues any request, both leave the fetched
zone list untouched, a sort change resets the display limit to its initial
value 5 (the value of `initialAppState.displayLimit`), and "show more"
increases the display limit by exactly 5. -/
theorem C8_sort_and_load_more (s : AppState) (newSort : SortOption) :
    (handleSortChange s newSort).2 = [] ∧
    (handleSortChange s newSort).1.darkSkyZones = s.darkSkyZones ∧
    (handleSortChange s newSort).1.displayLimit = 5 ∧
    initialAppState.displayLimit = 5 ∧
    (handleLoadMore s).2 = [] ∧
    (handleLoadMore s).1.darkSkyZones = s.darkSkyZones ∧
    (handleLoadMore s).1.displayLimit = s.displayLimit + 5 :=
  ⟨rfl, rfl, rfl, rfl, rfl, rfl, rfl⟩

/-- C10: when a zone-scoped recommendations fetch fails, the recommendation
list keeps its previous value, the error banner is set, and the active tab
is unchanged (in particular it is not switched to the recommendations tab);
the switch happens only in the success continuation, after the response is
stored. -/
theorem C10_zone_fetch_failure (s : AppState) (msg : String)
    (recs : List StargazingRecommendation) :
    (handleZoneSelectionFailure s msg).recommendations = s.recommendations ∧
    (handleZoneSelectionFailure s msg).error = some msg ∧
    (handleZoneSelectionFailure s msg).activeTab = s.activeTab ∧
    (handleZoneSelectionSuccess s recs).recommendations = recs ∧
    (handleZoneSelectionSuccess s recs).activeTab = .recommendations :=
  ⟨rfl, rfl, rfl, rfl, rfl⟩

end Stargazr

namespace Stargazr

/-! ## Zone card disclosure state machine (DarkSkyZoneCard.tsx lines 50-99,
149-176)

The nested description "Read more" button sits inside the expandable
container, which while collapsed has `max-height: 0; overflow: hidden`
(index.css, `.animate-expand`), so the description toggle can only fire
while the card is expanded. -/

/-- The `useState` flags of `DarkSkyZoneCard` relevant to disclosure
(lines 53-56), plus a flag for the pending 300 ms hint timeout scheduled on
collapse (lines 90-93). -/
structure CardState where
  isExpanded : Bool
  showHint : Bool
  hintKey : ℕ
  isDescriptionExpanded : Bool
  hintTimerPending : Bool
deriving Repr, DecidableEq

/-- The initial card state (lines 53-56): collapsed, hint shown,
description truncated, no timer pending. -/
def initialCardState : CardState :=
  { isExpanded := false, showHint := true, hintKey := 0
    isDescriptionExpanded := false, hintTimerPending := false }

/-- `handleToggleExpansion` (lines 83-99): collapsing hides the hint,
collapses the card, resets the description expansion and schedules the
hint timeout; expanding hides the hint and expands. -/
def handleToggleExpansion (s : CardState) : CardState :=
  if s.isExpanded then
    { s with
        showHint := false
        isExpanded := false
        isDescriptionExpanded := false
        hintTimerPending := true }
  else
    { s with showHint := false, isExpanded := true }

/-- The card events: a tap on the card, a click on the nested description
"Read more" / "Show less" button (lines 164-172), and the firing of the
scheduled hint timeout (lines 90-93). -/
inductive CardEvent where
  | toggleExpansion
  | descriptionToggle
  | hintTimerFire
deriving Repr, DecidableEq

/-- One transition of the card state machine.  The description toggle is
guarded by `isExpanded` because the button is inside the
`max-height: 0; overflow: hidden` container while the card is collapsed. -/
def cardStep (s : CardState) : CardEvent → CardState
  | .toggleExpansion => handleToggleExpansion s
  | .descriptionToggle =>
    if s.isExpanded then
      { s with isDescriptionExpanded := !s.isDescriptionExpanded }
    else s
  | .hintTimerFire =>
    if s.hintTimerPending then
      { s with
          showHint := true
          hintKey := s.hintKey + 1
          hintTimerPending := false }
    else s

/-- The states the card can reach from its initial state. -/
inductive CardReachable : CardState → Prop where
  | init : CardReachable initialCardState
  | step {s : CardState} (e : CardEvent) :
      CardReachable s → CardReachable (cardStep s e)

/-- C9: collapsing an expanded card resets the nested description expansion
to collapsed; in every reachable state a collapsed card has a collapsed
description, and every transition preserves this invariant. -/
theorem C9_description_reset :
    (∀ s : CardState, s.isExpanded = true →
      (cardStep s .toggleExpansion).isDescriptionExpanded = false) ∧
    (∀ s : CardState, CardReachable s →
      s.isExpanded = false → s.isDescriptionExpanded = false) ∧
    (∀ (s : CardState) (e : CardEvent), CardReachable s →
      (cardStep s e).isExpanded = false →
      (cardStep s e).isDescriptionExpanded = false) := by
  have inv : ∀ s : CardState, CardReachable s →
      s.isExpanded = false → s.isDescriptionExpanded = false := by
    intro s hs
    induction hs with
    | init => intro _; rfl
    | step e hr ih =>
      rename_i t
      intro hcol
      cases e with
      | toggleExpansion =>
        by_cases h : t.isExpanded
        · simp [cardStep, handleToggleExpansion, h]
        · simp [cardStep, handleToggleExpansion, h] at hcol
      | descriptionToggle =>
        by_cases h : t.isExpanded
        · simp [cardStep, h] at hcol
        · have hfalse : t.isExpanded = false := by simpa using h
          simp [cardStep, hfalse]
          exact ih hfalse
      | hintTimerFire =>
        by_cases h : t.hintTimerPending
        · simp [cardStep, h] at hcol ⊢
          exact ih hcol
        · simp [cardStep, h] at hcol ⊢
          exact ih hcol
  refine ⟨?_, inv, ?_⟩
  · intro s h
    simp [cardStep, handleToggleExpansion, h]
  · intro s e hs
    exact inv (cardStep s e) (CardReachable.step e hs)

/-- Witness for C9: after expanding, toggling the description, and
collapsing again, the reached state is collapsed with a collapsed
description. -/
theorem C9_description_reset_witness :
    (cardStep (cardStep (cardStep initialCardState .toggleExpansion)
        .descriptionToggle) .toggleExpansion).isDescriptionExpanded = false :=
  C9_description_reset.2.1 _
    (CardReachable.step .toggleExpansion
      (CardReachable.step .descriptionToggle
        (CardReachable.step .toggleExpansion CardReachable.init)))
    (by decide)

end Stargazr
